import Mathlib

/-!
Verification of the XDP packet classifier in
`src/network/af_xdp/bpf/xdp_filter.c`.

The C program is a single eBPF/XDP function `xdp_filter_prog` that, per
received frame, parses Ethernet → IPv4 → UDP with explicit bounds checks
against the frame end (`data_end`), looks the UDP destination port up in the
`port_filter` hash map (u16 port, host byte order → u8 action), and on a
nonzero action calls `bpf_redirect_map(&xsks_map, queue_id, XDP_PASS)`,
returning `XDP_REDIRECT` when the queue has a registered AF_XDP socket and the
fallback `XDP_PASS` otherwise.

The embedding below models the frame as a list of bytes (`List Nat`, each
memory byte taken modulo 256), the two BPF maps as functions into `Option`,
and the program as a function into `Option (Nat × List Effect)`: a frame-byte
access that is out of bounds (at or past `data_end`, i.e. at an index at or
past the list length) yields `none`, and the trace records each byte read and
each map lookup, so that in-bounds totality and read-onlyness are provable
statements rather than modeling assumptions.
-/

namespace XdpFilter

/-- XDP verdict `XDP_PASS` (numeric value from `linux/bpf.h`). -/
def XDP_PASS : Nat := 2

/-- XDP verdict `XDP_REDIRECT` (numeric value from `linux/bpf.h`). -/
def XDP_REDIRECT : Nat := 4

/-- EtherType of IPv4, `ETH_P_IP` from `linux/if_ether.h`. -/
def ETH_P_IP : Nat := 0x0800

/-- IP protocol number of UDP, `IPPROTO_UDP` from `linux/in.h`. -/
def IPPROTO_UDP : Nat := 17

/-- Size in bytes of `struct ethhdr` (6 + 6 + 2). -/
def ETH_HLEN : Nat := 14

/-- Size in bytes of the fixed part of `struct iphdr`. -/
def IPHDR_LEN : Nat := 20

/-- Size in bytes of `struct udphdr`. -/
def UDPHDR_LEN : Nat := 8

/-- One observable action of the classifier on its environment.  Read and
write actions are both representable; the theorems below show the program
only ever emits the read-flavoured ones. -/
inductive Effect where
  /-- Read of the frame byte at absolute offset `idx` from `data`. -/
  | readByte (idx : Nat) : Effect
  /-- Read-only lookup of `port` in the `port_filter` BPF map. -/
  | lookupPort (port : Nat) : Effect
  /-- Read-only lookup of `queue` in the `xsks_map` BPF map. -/
  | lookupQueue (queue : Nat) : Effect
  /-- Store of value `val` to the frame byte at offset `idx` (never emitted). -/
  | writeByte (idx : Nat) (val : Nat) : Effect
  /-- Update of the `port_filter` map entry for `port` (never emitted). -/
  | updatePort (port : Nat) (val : Option Nat) : Effect
  /-- Update of the `xsks_map` map entry for `queue` (never emitted). -/
  | updateQueue (queue : Nat) (val : Option Nat) : Effect
deriving DecidableEq

/-- Whether an effect mutates the frame or one of the two maps. -/
def Effect.isWrite : Effect → Bool
  | .writeByte _ _ => true
  | .updatePort _ _ => true
  | .updateQueue _ _ => true
  | _ => false

/-- Whether an effect is a frame-byte read at or past the bound `len`
(the byte count of the captured frame, i.e. `data_end - data`). -/
def Effect.isFrameReadAtOrPast (len : Nat) : Effect → Bool
  | .readByte i => decide (len ≤ i)
  | _ => false

/-- The externally owned state the classifier reads: the `port_filter`
hash map (UDP destination port, host byte order → action byte) and the
`xsks_map` XSKMAP (receive-queue id → AF_XDP socket).  Both maps are
injected as partial functions; `none` is an absent key. -/
structure FilterState where
  port_filter : Nat → Option Nat
  xsks_map : Nat → Option Nat

/-- Read one frame byte at offset `i`.  Out of bounds (at or past the frame
length) is `none`; an in-bounds cell holds a memory byte, hence mod 256. -/
def readU8 (frame : List Nat) (i : Nat) : Option Nat :=
  (frame[i]?).map (fun b => b % 256)

/-- Read a 16-bit big-endian (network byte order) value whose bytes sit at
offsets `i` and `i+1`, already converted to a host-order number, as
`bpf_ntohs` produces from a two-byte load. -/
def readU16be (frame : List Nat) (i : Nat) : Option Nat :=
  match readU8 frame i, readU8 frame (i + 1) with
  | some hi, some lo => some (hi * 256 + lo)
  | _, _ => none

/-- Model of the BPF helper `bpf_redirect_map(map, key, flags)` with
`flags = XDP_PASS`: if the map has an entry for `key` the packet is
redirected (`XDP_REDIRECT`); otherwise the helper returns the fallback
action passed in `flags`. -/
def bpf_redirect_map (xsks_map : Nat → Option Nat) (key : Nat) (fallback : Nat) : Nat :=
  match xsks_map key with
  | some _ => XDP_REDIRECT
  | none => fallback

/-- Shallow embedding of `xdp_filter_prog` from `xdp_filter.c`, with an
effect trace.  Mirrors the C control flow line by line:

1. bounds check `(void*)(eth + 1) > data_end`, on failure `XDP_PASS`;
2. `eth->h_proto != bpf_htons(ETH_P_IP)` → `XDP_PASS`;
3. bounds check `(void*)(ip + 1) > data_end`, on failure `XDP_PASS`;
4. `ip->protocol != IPPROTO_UDP` → `XDP_PASS`;
5. `udp = (void*)ip + ip->ihl * 4` (the `ihl` bitfield is the low nibble of
   the first IP header byte); bounds check `(void*)(udp + 1) > data_end`,
   on failure `XDP_PASS`;
6. `dport = bpf_ntohs(udp->dest)`;
7. `action = bpf_map_lookup_elem(&port_filter, &dport)`; absent entry or
   action byte 0 → `XDP_PASS`;
8. `return bpf_redirect_map(&xsks_map, ctx->rx_queue_index, XDP_PASS)`.

`data_end` is the frame length; a read that the C program would perform past
`data_end` yields `none` here. -/
def xdp_filter_prog_tr (st : FilterState) (frame : List Nat) (rx_queue_index : Nat) :
    Option (Nat × List Effect) :=
  let data_end := frame.length
  if data_end < ETH_HLEN then some (XDP_PASS, []) else
  match readU16be frame 12 with
  | none => none
  | some h_proto =>
    let tr := [Effect.readByte 12, Effect.readByte 13]
    if h_proto ≠ ETH_P_IP then some (XDP_PASS, tr) else
    if data_end < ETH_HLEN + IPHDR_LEN then some (XDP_PASS, tr) else
    match readU8 frame 23 with
    | none => none
    | some protocol =>
      let tr := tr ++ [Effect.readByte 23]
      if protocol ≠ IPPROTO_UDP then some (XDP_PASS, tr) else
      match readU8 frame 14 with
      | none => none
      | some vihl =>
        let tr := tr ++ [Effect.readByte 14]
        let udp_off := ETH_HLEN + vihl % 16 * 4
        if data_end < udp_off + UDPHDR_LEN then some (XDP_PASS, tr) else
        match readU16be frame (udp_off + 2) with
        | none => none
        | some dport =>
          let tr := tr ++ [Effect.readByte (udp_off + 2), Effect.readByte (udp_off + 3),
                           Effect.lookupPort dport]
          match st.port_filter dport with
          | none => some (XDP_PASS, tr)
          | some action =>
            if action % 256 = 0 then some (XDP_PASS, tr) else
            some (bpf_redirect_map st.xsks_map rx_queue_index XDP_PASS,
                  tr ++ [Effect.lookupQueue rx_queue_index])

/-- The classifier's verdict alone: `xdp_filter_prog_tr` with the trace
projected away. -/
def xdp_filter_prog (st : FilterState) (frame : List Nat) (rx_queue_index : Nat) :
    Option Nat :=
  (xdp_filter_prog_tr st frame rx_queue_index).map Prod.fst

/-- The IPv4 `ihl` field of a frame: low nibble of the byte at offset
`ETH_HLEN` (the first IPv4 header byte). -/
def ihlOf (frame : List Nat) : Nat := frame.getD ETH_HLEN 0 % 16

/-- Offset of the UDP header as the program computes it:
`ip_header_start + ihl * 4`. -/
def udpOff (frame : List Nat) : Nat := ETH_HLEN + ihlOf frame * 4

/-- The UDP destination port the program extracts: the two wire bytes at
`udpOff + 2`, `udpOff + 3` combined big-endian (network → host order). -/
def dportOf (frame : List Nat) : Nat :=
  (frame.getD (udpOff frame + 2) 0 % 256) * 256 + frame.getD (udpOff frame + 3) 0 % 256

/-- A frame that passes every structural test of the program: long enough for
Ethernet + fixed IPv4 headers, EtherType IPv4, protocol UDP, and the computed
UDP header extent within the frame. -/
def isUDPFrame (frame : List Nat) : Prop :=
  ETH_HLEN + IPHDR_LEN ≤ frame.length ∧
  readU16be frame 12 = some ETH_P_IP ∧
  readU8 frame 23 = some IPPROTO_UDP ∧
  udpOff frame + UDPHDR_LEN ≤ frame.length

instance (frame : List Nat) : Decidable (isUDPFrame frame) := by
  unfold isUDPFrame; infer_instance

/-- The tail decision of the program once a destination port has been
extracted, used to state theorems: absent filter entry or action byte 0 is
`XDP_PASS`, any other entry hands off to `bpf_redirect_map`. -/
def portDecision (st : FilterState) (dport : Nat) (rx_queue_index : Nat) : Nat :=
  match st.port_filter dport with
  | none => XDP_PASS
  | some action =>
    if action % 256 = 0 then XDP_PASS
    else bpf_redirect_map st.xsks_map rx_queue_index XDP_PASS

/-- The effect trace of a fully parsed frame, before any queue lookup. -/
def parseTrace (frame : List Nat) : List Effect :=
  [Effect.readByte 12, Effect.readByte 13, Effect.readByte 23, Effect.readByte 14,
   Effect.readByte (udpOff frame + 2), Effect.readByte (udpOff frame + 3),
   Effect.lookupPort (dportOf frame)]

/-- An in-bounds frame-byte read succeeds and returns the byte. -/
lemma readU8_eq (frame : List Nat) (i : Nat) (h : i < frame.length) :
    readU8 frame i = some (frame.getD i 0 % 256) := by
  simp [readU8, List.getElem?_eq_getElem h, List.getD_eq_getElem?_getD]

/-- An in-bounds big-endian 16-bit read succeeds and returns the two bytes
combined in network order. -/
lemma readU16be_eq (frame : List Nat) (i : Nat) (h : i + 1 < frame.length) :
    readU16be frame i =
      some ((frame.getD i 0 % 256) * 256 + frame.getD (i + 1) 0 % 256) := by
  rw [readU16be, readU8_eq frame i (by omega), readU8_eq frame (i + 1) h]

/-- Branch characterization: a frame shorter than an Ethernet header is
passed with no byte read at all. -/
lemma prog_tr_short_eth (st : FilterState) (frame : List Nat) (rx : Nat)
    (h : frame.length < ETH_HLEN) :
    xdp_filter_prog_tr st frame rx = some (XDP_PASS, []) := by
  unfold xdp_filter_prog_tr
  simp [h]

/-- Branch characterization: a long-enough frame whose EtherType is not IPv4
is passed after reading only the two EtherType bytes. -/
lemma prog_tr_non_ipv4 (st : FilterState) (frame : List Nat) (rx : Nat) (v : Nat)
    (hlen : ETH_HLEN ≤ frame.length)
    (hv : readU16be frame 12 = some v) (hne : v ≠ ETH_P_IP) :
    xdp_filter_prog_tr st frame rx =
      some (XDP_PASS, [Effect.readByte 12, Effect.readByte 13]) := by
  have h14 : ¬ frame.length < ETH_HLEN := by omega
  unfold xdp_filter_prog_tr
  rw [if_neg h14, hv]
  simp [hne]

/-- Branch characterization: an IPv4 frame too short for the fixed IPv4
header is passed after reading only the EtherType bytes. -/
lemma prog_tr_short_ip (st : FilterState) (frame : List Nat) (rx : Nat)
    (hip : readU16be frame 12 = some ETH_P_IP)
    (hlen : ETH_HLEN ≤ frame.length)
    (hshort : frame.length < ETH_HLEN + IPHDR_LEN) :
    xdp_filter_prog_tr st frame rx =
      some (XDP_PASS, [Effect.readByte 12, Effect.readByte 13]) := by
  have h14 : ¬ frame.length < ETH_HLEN := by omega
  unfold xdp_filter_prog_tr
  rw [if_neg h14, hip]
  simp [hshort]

/-- Branch characterization: an IPv4 frame whose protocol byte is not UDP is
passed after reading the EtherType and protocol bytes. -/
lemma prog_tr_non_udp (st : FilterState) (frame : List Nat) (rx : Nat) (p : Nat)
    (hlen : ETH_HLEN + IPHDR_LEN ≤ frame.length)
    (hip : readU16be frame 12 = some ETH_P_IP)
    (hp : readU8 frame 23 = some p) (hne : p ≠ IPPROTO_UDP) :
    xdp_filter_prog_tr st frame rx =
      some (XDP_PASS, [Effect.readByte 12, Effect.readByte 13, Effect.readByte 23]) := by
  have hlen' : 34 ≤ frame.length := by simpa [ETH_HLEN, IPHDR_LEN] using hlen
  have h14 : ¬ frame.length < ETH_HLEN := by simp [ETH_HLEN]; omega
  have h34 : ¬ frame.length < ETH_HLEN + IPHDR_LEN := by simp [ETH_HLEN, IPHDR_LEN]; omega
  unfold xdp_filter_prog_tr
  rw [if_neg h14, hip]
  simp only [ne_eq, not_true_eq_false, if_false, if_neg h34, ite_false, hp]
  simp [hne]

/-- Branch characterization: an IPv4/UDP frame whose computed UDP header
extent overruns the frame end is passed after reading the EtherType,
protocol and IHL bytes, and nothing at or past the UDP offset. -/
lemma prog_tr_short_udp (st : FilterState) (frame : List Nat) (rx : Nat)
    (hlen : ETH_HLEN + IPHDR_LEN ≤ frame.length)
    (hip : readU16be frame 12 = some ETH_P_IP)
    (hp : readU8 frame 23 = some IPPROTO_UDP)
    (hshort : frame.length < udpOff frame + UDPHDR_LEN) :
    xdp_filter_prog_tr st frame rx =
      some (XDP_PASS, [Effect.readByte 12, Effect.readByte 13, Effect.readByte 23,
                       Effect.readByte 14]) := by
  have hlen' : 34 ≤ frame.length := by simpa [ETH_HLEN, IPHDR_LEN] using hlen
  have h14 : ¬ frame.length < ETH_HLEN := by simp [ETH_HLEN]; omega
  have h34 : ¬ frame.length < ETH_HLEN + IPHDR_LEN := by simp [ETH_HLEN, IPHDR_LEN]; omega
  have hihl : frame.getD 14 0 % 256 % 16 = ihlOf frame := by
    rw [Nat.mod_mod_of_dvd _ (by norm_num : (16 : ℕ) ∣ 256)]; rfl
  unfold xdp_filter_prog_tr
  rw [if_neg h14, hip]
  simp only [ne_eq, not_true_eq_false, if_false, if_neg h34, ite_false, hp]
  rw [readU8_eq frame 14 (by omega)]
  simp only [hihl]
  have hcond : frame.length < ETH_HLEN + ihlOf frame * 4 + UDPHDR_LEN := by
    have : udpOff frame = ETH_HLEN + ihlOf frame * 4 := rfl
    omega
  simp [hcond]

/-- Main characterization: on a structurally valid IPv4/UDP frame the
program reduces to the port decision on the extracted destination port,
with the parse trace (plus the queue lookup on the redirect branch). -/
lemma prog_tr_parsed (st : FilterState) (frame : List Nat) (rx : Nat)
    (h : isUDPFrame frame) :
    xdp_filter_prog_tr st frame rx =
      match st.port_filter (dportOf frame) with
      | none => some (XDP_PASS, parseTrace frame)
      | some action =>
        if action % 256 = 0 then some (XDP_PASS, parseTrace frame)
        else some (bpf_redirect_map st.xsks_map rx XDP_PASS,
                   parseTrace frame ++ [Effect.lookupQueue rx]) := by
  obtain ⟨hlen, hip, hp, hfit⟩ := h
  have hlen' : 34 ≤ frame.length := by simpa [ETH_HLEN, IPHDR_LEN] using hlen
  have h14 : ¬ frame.length < ETH_HLEN := by simp [ETH_HLEN]; omega
  have h34 : ¬ frame.length < ETH_HLEN + IPHDR_LEN := by simp [ETH_HLEN, IPHDR_LEN]; omega
  have hihl : frame.getD 14 0 % 256 % 16 = ihlOf frame := by
    rw [Nat.mod_mod_of_dvd _ (by norm_num : (16 : ℕ) ∣ 256)]; rfl
  have hfit' : udpOff frame + 8 ≤ frame.length := by
    simpa [UDPHDR_LEN] using hfit
  unfold xdp_filter_prog_tr
  rw [if_neg h14, hip]
  simp only [ne_eq, not_true_eq_false, if_false, if_neg h34, ite_false, hp]
  rw [readU8_eq frame 14 (by omega)]
  simp only [hihl]
  have hcond : ¬ frame.length < ETH_HLEN + ihlOf frame * 4 + UDPHDR_LEN := by
    have : udpOff frame = ETH_HLEN + ihlOf frame * 4 := rfl
    omega
  rw [if_neg (by simpa using hcond)]
  have hoff : ETH_HLEN + ihlOf frame * 4 = udpOff frame := rfl
  rw [hoff, readU16be_eq frame (udpOff frame + 2) (by omega)]
  have hdport : (frame.getD (udpOff frame + 2) 0 % 256) * 256 +
      frame.getD (udpOff frame + 3) 0 % 256 = dportOf frame := rfl
  simp only [show udpOff frame + 2 + 1 = udpOff frame + 3 by omega, hdport]
  cases hpf : st.port_filter (dportOf frame) with
  | none => simp [parseTrace]
  | some action =>
    by_cases ha : action % 256 = 0 <;> simp [ha, parseTrace]

/-- The parse trace of a fitting UDP frame reads no byte at or past the
frame end. -/
lemma parseTrace_in_bounds (frame : List Nat)
    (hlen : ETH_HLEN + IPHDR_LEN ≤ frame.length)
    (hfit : udpOff frame + UDPHDR_LEN ≤ frame.length) :
    (parseTrace frame).all (fun e => !(e.isFrameReadAtOrPast frame.length)) = true := by
  simp only [ETH_HLEN, IPHDR_LEN, UDPHDR_LEN] at hlen hfit
  simp [parseTrace, Effect.isFrameReadAtOrPast]
  omega

/-- The parse trace contains no write effect. -/
lemma parseTrace_no_write (frame : List Nat) :
    (parseTrace frame).all (fun e => !(e.isWrite)) = true := by
  simp [parseTrace, Effect.isWrite]

/-- Every run of the program yields a verdict that is `XDP_PASS` or
`XDP_REDIRECT`, with a trace that reads no frame byte at or past the frame
end and contains no write effect. -/
lemma run_spec (st : FilterState) (frame : List Nat) (rx : Nat) :
    ∃ r tr, xdp_filter_prog_tr st frame rx = some (r, tr) ∧
      (r = XDP_PASS ∨ r = XDP_REDIRECT) ∧
      tr.all (fun e => !(e.isFrameReadAtOrPast frame.length)) = true ∧
      tr.all (fun e => !(e.isWrite)) = true := by
  by_cases h1 : frame.length < ETH_HLEN
  · exact ⟨XDP_PASS, [], prog_tr_short_eth st frame rx h1, Or.inl rfl, rfl, rfl⟩
  have hlen14 : 14 ≤ frame.length := by simpa [ETH_HLEN] using not_lt.mp h1
  have hv := readU16be_eq frame 12 (by omega)
  by_cases hve : (frame.getD 12 0 % 256) * 256 + frame.getD 13 0 % 256 = ETH_P_IP
  case neg =>
    refine ⟨XDP_PASS, _, prog_tr_non_ipv4 st frame rx _ (not_lt.mp h1) hv hve,
      Or.inl rfl, ?_, rfl⟩
    simp [Effect.isFrameReadAtOrPast]
    omega
  rw [hve] at hv
  by_cases h2 : frame.length < ETH_HLEN + IPHDR_LEN
  · refine ⟨XDP_PASS, _, prog_tr_short_ip st frame rx hv (not_lt.mp h1) h2,
      Or.inl rfl, ?_, rfl⟩
    simp [Effect.isFrameReadAtOrPast]
    omega
  have hlen34 : 34 ≤ frame.length := by
    simpa [ETH_HLEN, IPHDR_LEN] using not_lt.mp h2
  have hp := readU8_eq frame 23 (by omega)
  by_cases hpe : frame.getD 23 0 % 256 = IPPROTO_UDP
  case neg =>
    refine ⟨XDP_PASS, _, prog_tr_non_udp st frame rx _ (not_lt.mp h2) hv hp hpe,
      Or.inl rfl, ?_, rfl⟩
    simp [Effect.isFrameReadAtOrPast]
    omega
  rw [hpe] at hp
  by_cases h3 : frame.length < udpOff frame + UDPHDR_LEN
  · refine ⟨XDP_PASS, _, prog_tr_short_udp st frame rx (not_lt.mp h2) hv hp h3,
      Or.inl rfl, ?_, rfl⟩
    simp [Effect.isFrameReadAtOrPast]
    omega
  have hwf : isUDPFrame frame := ⟨not_lt.mp h2, hv, hp, not_lt.mp h3⟩
  have hrun := prog_tr_parsed st frame rx hwf
  cases hpf : st.port_filter (dportOf frame) with
  | none =>
    rw [hpf] at hrun
    exact ⟨XDP_PASS, _, hrun, Or.inl rfl,
      parseTrace_in_bounds frame (not_lt.mp h2) (not_lt.mp h3),
      parseTrace_no_write frame⟩
  | some action =>
    rw [hpf] at hrun
    by_cases ha : action % 256 = 0
    · simp only [ha, ite_true] at hrun
      exact ⟨XDP_PASS, _, hrun, Or.inl rfl,
        parseTrace_in_bounds frame (not_lt.mp h2) (not_lt.mp h3),
        parseTrace_no_write frame⟩
    · simp only [ha, ite_false] at hrun
      refine ⟨bpf_redirect_map st.xsks_map rx XDP_PASS, _, hrun, ?_, ?_, ?_⟩
      · unfold bpf_redirect_map
        cases st.xsks_map rx with
        | none => exact Or.inl rfl
        | some fd => exact Or.inr rfl
      · have h4 := parseTrace_in_bounds frame (not_lt.mp h2) (not_lt.mp h3)
        simp_all [Effect.isFrameReadAtOrPast]
      · have h5 := parseTrace_no_write frame
        simp_all [Effect.isWrite]

/-- C1: on every input byte sequence of any length, and for every table state
and receive queue, the classifier returns exactly `XDP_PASS` (DefaultPath) or
`XDP_REDIRECT` (RedirectedPath), and its effect trace contains no read of a
frame byte at or past the declared frame end. -/
theorem C1_totality_and_in_bounds :
    ∀ (st : FilterState) (frame : List Nat) (rx : Nat),
      (xdp_filter_prog st frame rx = some XDP_PASS ∨
       xdp_filter_prog st frame rx = some XDP_REDIRECT) ∧
      (xdp_filter_prog_tr st frame rx).map
        (fun p => p.2.all fun e => !(e.isFrameReadAtOrPast frame.length)) = some true := by
  intro st frame rx
  obtain ⟨r, tr, heq, hr, hoob, -⟩ := run_spec st frame rx
  constructor
  · rcases hr with h | h
    · exact Or.inl (by simp [xdp_filter_prog, heq, h])
    · exact Or.inr (by simp [xdp_filter_prog, heq, h])
  · simp [heq, hoob]

/-- C8: on every invocation and every path the classifier's effect trace
contains no write effect: the frame bytes and both maps are only read,
never mutated. -/
theorem C8_read_only :
    ∀ (st : FilterState) (frame : List Nat) (rx : Nat),
      (xdp_filter_prog_tr st frame rx).map
        (fun p => p.2.all fun e => !(e.isWrite)) = some true := by
  intro st frame rx
  obtain ⟨r, tr, heq, -, -, hw⟩ := run_spec st frame rx
  simp [heq, hw]

/-- Outcome-level corollary of the main characterization: a structurally
valid IPv4/UDP frame is classified exactly by `portDecision` on its
extracted destination port. -/
lemma prog_parsed (st : FilterState) (frame : List Nat) (rx : Nat)
    (h : isUDPFrame frame) :
    xdp_filter_prog st frame rx = some (portDecision st (dportOf frame) rx) := by
  unfold xdp_filter_prog portDecision
  rw [prog_tr_parsed st frame rx h]
  cases hpf : st.port_filter (dportOf frame) with
  | none => simp
  | some a => by_cases ha : a % 256 = 0 <;> simp [ha]

/-- Example filter state: port 8001 is marked redirect (action byte 1) and
queue 3 has a registered AF_XDP socket. -/
def stRedirect : FilterState :=
  ⟨fun p => if p = 8001 then some 1 else none, fun q => if q = 3 then some 5 else none⟩

/-- Example filter state: port 8001 is marked redirect but no queue has a
registered socket. -/
def stNoTarget : FilterState :=
  ⟨fun p => if p = 8001 then some 1 else none, fun _ => none⟩

/-- Example filter state: port 8001 carries the nonstandard nonzero action
byte 7; queue 3 has a registered socket. -/
def stAction7 : FilterState :=
  ⟨fun p => if p = 8001 then some 7 else none, fun q => if q = 3 then some 5 else none⟩

/-- A 42-byte Ethernet + IPv4 (ihl = 5) + UDP frame with destination
port 8001 (wire bytes 0x1F 0x41). -/
def goodFrame : List Nat :=
  List.replicate 12 0 ++ [0x08, 0x00, 0x45] ++ List.replicate 8 0 ++ [17] ++
  List.replicate 10 0 ++ [0, 0, 0x1F, 0x41, 0, 8, 0, 0]

/-- An 82-byte Ethernet + IPv4 (ihl = 15, 60-byte IP header) + UDP frame
whose UDP header ends exactly at the frame end (offset 74 + 8 = 82) and
carries destination port 8001. -/
def exFrame : List Nat :=
  List.replicate 12 0 ++ [0x08, 0x00, 0x4F] ++ List.replicate 8 0 ++ [17] ++
  List.replicate 50 0 ++ [0, 0, 0x1F, 0x41, 0, 0, 0, 0]

/-- A 40-byte Ethernet + IPv4 (ihl = 15) + UDP frame truncated before the
computed UDP offset (74 + 8 > 40). -/
def truncFrame : List Nat :=
  List.replicate 12 0 ++ [0x08, 0x00, 0x4F] ++ List.replicate 8 0 ++ [17] ++
  List.replicate 16 0

/-- A 14-byte frame whose EtherType is ARP (0x0806), not IPv4. -/
def nonIpFrame : List Nat := List.replicate 12 0 ++ [0x08, 0x06]

/-- A 34-byte Ethernet + IPv4 (ihl = 5) frame whose protocol byte is
TCP (6), not UDP. -/
def tcpFrame : List Nat :=
  List.replicate 12 0 ++ [0x08, 0x00, 0x45] ++ List.replicate 8 0 ++ [6] ++
  List.replicate 10 0

/-- A 38-byte Ethernet + IPv4-like frame with undersized ihl = 4: EtherType
IPv4, protocol 17, and bytes 0x1F 0x41 at offsets 32–33 (inside what would
be the IPv4 address fields), where the program reads its destination
port from. -/
def ihl4Frame : List Nat :=
  List.replicate 12 0 ++ [0x08, 0x00, 0x44] ++ List.replicate 8 0 ++ [17] ++
  List.replicate 8 0 ++ [0x1F, 0x41] ++ List.replicate 4 0

/-- C5: every frame long enough for an Ethernet header whose EtherType is
not IPv4 is passed to the default path, for every filter-table state, every
redirect-table state and every queue, whatever the remaining bytes hold. -/
theorem C5_non_ipv4_passthrough (st : FilterState) (frame : List Nat) (rx v : Nat)
    (hlen : ETH_HLEN ≤ frame.length)
    (hv : readU16be frame 12 = some v) (hne : v ≠ ETH_P_IP) :
    xdp_filter_prog st frame rx = some XDP_PASS := by
  simp [xdp_filter_prog, prog_tr_non_ipv4 st frame rx v hlen hv hne]

/-- Witness for C5 at the concrete ARP frame and a table that would
redirect port 8001. -/
theorem C5_witness :
    ETH_HLEN ≤ nonIpFrame.length ∧ readU16be nonIpFrame 12 = some 0x0806 ∧
    (0x0806 : Nat) ≠ ETH_P_IP ∧
    xdp_filter_prog stRedirect nonIpFrame 0 = some XDP_PASS :=
  ⟨by decide, by decide, by decide,
   C5_non_ipv4_passthrough stRedirect nonIpFrame 0 0x0806
     (by decide) (by decide) (by decide)⟩

/-- C6: every frame with a complete Ethernet header of EtherType IPv4 and a
complete fixed IPv4 header whose protocol byte is not UDP is passed to the
default path, independent of the table contents. -/
theorem C6_non_udp_passthrough (st : FilterState) (frame : List Nat) (rx p : Nat)
    (hlen : ETH_HLEN + IPHDR_LEN ≤ frame.length)
    (hip : readU16be frame 12 = some ETH_P_IP)
    (hp : readU8 frame 23 = some p) (hne : p ≠ IPPROTO_UDP) :
    xdp_filter_prog st frame rx = some XDP_PASS := by
  simp [xdp_filter_prog, prog_tr_non_udp st frame rx p hlen hip hp hne]

/-- Witness for C6 at the concrete TCP frame. -/
theorem C6_witness :
    ETH_HLEN + IPHDR_LEN ≤ tcpFrame.length ∧
    readU16be tcpFrame 12 = some ETH_P_IP ∧
    readU8 tcpFrame 23 = some 6 ∧ (6 : Nat) ≠ IPPROTO_UDP ∧
    xdp_filter_prog stRedirect tcpFrame 0 = some XDP_PASS :=
  ⟨by decide, by decide, by decide, by decide,
   C6_non_udp_passthrough stRedirect tcpFrame 0 6
     (by decide) (by decide) (by decide) (by decide)⟩

/-- C2 as stated is false: on this concrete frame the UDP header offset is
14 + 15·4 = 74 and offset + UDP header size equals the frame end (82), i.e.
falls at the frame end, yet the classifier reads the UDP header (byte 76 is
in its trace) and returns `XDP_REDIRECT`, not DefaultPath. -/
theorem C2_counterexample :
    readU16be exFrame 12 = some ETH_P_IP ∧
    readU8 exFrame 23 = some IPPROTO_UDP ∧
    udpOff exFrame = ETH_HLEN + 15 * 4 ∧
    udpOff exFrame + UDPHDR_LEN = exFrame.length ∧
    xdp_filter_prog stRedirect exFrame 3 = some XDP_REDIRECT ∧
    (xdp_filter_prog_tr stRedirect exFrame 3).map
      (fun pr => pr.2.contains (Effect.readByte (udpOff exFrame + 2))) = some true := by
  decide

/-- C2 (amended): for every frame parsing as Ethernet + IPv4 with protocol
UDP, the UDP header offset is `ip_header_start + ihl * 4`, and when that
offset plus the UDP header size exceeds the frame end the classifier
returns DefaultPath having read only the EtherType, protocol and IHL bytes
— no UDP header byte. -/
theorem C2_amended_second_bounds_check (st : FilterState) (frame : List Nat) (rx : Nat)
    (hlen : ETH_HLEN + IPHDR_LEN ≤ frame.length)
    (hip : readU16be frame 12 = some ETH_P_IP)
    (hudp : readU8 frame 23 = some IPPROTO_UDP)
    (hshort : frame.length < udpOff frame + UDPHDR_LEN) :
    xdp_filter_prog st frame rx = some XDP_PASS ∧
    xdp_filter_prog_tr st frame rx =
      some (XDP_PASS, [Effect.readByte 12, Effect.readByte 13, Effect.readByte 23,
                       Effect.readByte 14]) := by
  have h := prog_tr_short_udp st frame rx hlen hip hudp hshort
  exact ⟨by simp [xdp_filter_prog, h], h⟩

/-- Witness for the amended C2 at a 40-byte ihl = 15 frame whose computed
UDP offset 74 lies past the frame end. -/
theorem C2_amended_witness :
    (ETH_HLEN + IPHDR_LEN ≤ truncFrame.length ∧
     readU16be truncFrame 12 = some ETH_P_IP ∧
     readU8 truncFrame 23 = some IPPROTO_UDP ∧
     truncFrame.length < udpOff truncFrame + UDPHDR_LEN) ∧
    xdp_filter_prog stRedirect truncFrame 0 = some XDP_PASS :=
  ⟨⟨by decide, by decide, by decide, by decide⟩,
   (C2_amended_second_bounds_check stRedirect truncFrame 0
     (by decide) (by decide) (by decide) (by decide)).1⟩

/-- C3: on a well-formed IPv4/UDP frame, a redirect entry (action byte 1)
for the destination port together with a registered target for the frame's
queue yields `XDP_REDIRECT`; a pass entry (action byte 0) or an absent
entry yields `XDP_PASS`. -/
theorem C3_policy_fidelity (st : FilterState) (frame : List Nat) (rx : Nat)
    (h : isUDPFrame frame) :
    (∀ t, st.port_filter (dportOf frame) = some 1 → st.xsks_map rx = some t →
        xdp_filter_prog st frame rx = some XDP_REDIRECT) ∧
    (st.port_filter (dportOf frame) = some 0 →
        xdp_filter_prog st frame rx = some XDP_PASS) ∧
    (st.port_filter (dportOf frame) = none →
        xdp_filter_prog st frame rx = some XDP_PASS) := by
  have hp := prog_parsed st frame rx h
  refine ⟨?_, ?_, ?_⟩
  · intro t h1 h2
    rw [hp]; unfold portDecision; rw [h1]
    simp [bpf_redirect_map, h2]
  · intro h1
    rw [hp]; unfold portDecision; rw [h1]
    simp
  · intro h1
    rw [hp]; unfold portDecision; rw [h1]

/-- Witness for C3: the concrete redirect scenario (port 8001 → redirect,
queue 3 registered) on the 42-byte UDP frame. -/
theorem C3_witness :
    isUDPFrame goodFrame ∧
    xdp_filter_prog stRedirect goodFrame 3 = some XDP_REDIRECT :=
  ⟨by decide,
   (C3_policy_fidelity stRedirect goodFrame 3 (by decide)).1 5 (by decide) (by decide)⟩

/-- C4: on a well-formed IPv4/UDP frame whose destination port has a
redirect entry (any nonzero action byte) but whose queue has no registered
target, the classifier fails open to `XDP_PASS` — a defined verdict, not an
error and not a drop. -/
theorem C4_fail_open (st : FilterState) (frame : List Nat) (rx a : Nat)
    (h : isUDPFrame frame)
    (hredir : st.port_filter (dportOf frame) = some a) (ha : a % 256 ≠ 0)
    (hq : st.xsks_map rx = none) :
    xdp_filter_prog st frame rx = some XDP_PASS := by
  rw [prog_parsed st frame rx h]
  unfold portDecision
  rw [hredir]
  simp [ha, bpf_redirect_map, hq]

/-- Witness for C4: redirect entry for port 8001 but an empty redirect
table, on the 42-byte UDP frame. -/
theorem C4_witness :
    (isUDPFrame goodFrame ∧ stNoTarget.port_filter (dportOf goodFrame) = some 1 ∧
     (1 : Nat) % 256 ≠ 0 ∧ stNoTarget.xsks_map 3 = none) ∧
    xdp_filter_prog stNoTarget goodFrame 3 = some XDP_PASS :=
  ⟨⟨by decide, by decide, by decide, by decide⟩,
   C4_fail_open stNoTarget goodFrame 3 1 (by decide) (by decide) (by decide) (by decide)⟩

/-- C7: on a well-formed IPv4/UDP frame whose on-the-wire destination-port
bytes are `hi` then `lo` (network byte order), the verdict is the port
decision at key `256 * hi + lo`: the table is consulted at the
host-byte-order port. -/
theorem C7_network_to_host_order (st : FilterState) (frame : List Nat) (rx hi lo : Nat)
    (h : isUDPFrame frame)
    (hhi : frame.getD (udpOff frame + 2) 0 = hi)
    (hlo : frame.getD (udpOff frame + 3) 0 = lo)
    (hhi2 : hi < 256) (hlo2 : lo < 256) :
    xdp_filter_prog st frame rx = some (portDecision st (256 * hi + lo) rx) := by
  have hkey : dportOf frame = 256 * hi + lo := by
    unfold dportOf
    rw [hhi, hlo, Nat.mod_eq_of_lt hhi2, Nat.mod_eq_of_lt hlo2]
    ring
  rw [prog_parsed st frame rx h, hkey]

/-- Witness for C7: wire bytes 0x1F 0x41 are looked up as host-order port
0x1F41 = 8001 on the 42-byte UDP frame. -/
theorem C7_witness :
    (isUDPFrame goodFrame ∧ goodFrame.getD (udpOff goodFrame + 2) 0 = 31 ∧
     goodFrame.getD (udpOff goodFrame + 3) 0 = 65) ∧
    xdp_filter_prog stRedirect goodFrame 3 = some (portDecision stRedirect (256 * 31 + 65) 3) :=
  ⟨⟨by decide, by decide, by decide⟩,
   C7_network_to_host_order stRedirect goodFrame 3 31 65
     (by decide) (by decide) (by decide) (by decide) (by decide)⟩

/-- C9: on a well-formed IPv4/UDP frame, any stored action byte other
than 0 sends the frame to `bpf_redirect_map` (the redirect attempt), while
exactly 0 or an absent entry yields `XDP_PASS`. -/
theorem C9_any_nonzero_action_redirects (st : FilterState) (frame : List Nat) (rx : Nat)
    (h : isUDPFrame frame) :
    (∀ a, st.port_filter (dportOf frame) = some a → a < 256 → a ≠ 0 →
        xdp_filter_prog st frame rx =
          some (bpf_redirect_map st.xsks_map rx XDP_PASS)) ∧
    (st.port_filter (dportOf frame) = some 0 →
        xdp_filter_prog st frame rx = some XDP_PASS) ∧
    (st.port_filter (dportOf frame) = none →
        xdp_filter_prog st frame rx = some XDP_PASS) := by
  have hp := prog_parsed st frame rx h
  refine ⟨?_, ?_, ?_⟩
  · intro a h1 h2 h3
    rw [hp]; unfold portDecision; rw [h1]
    simp [Nat.mod_eq_of_lt h2, h3]
  · intro h1
    rw [hp]; unfold portDecision; rw [h1]
    simp
  · intro h1
    rw [hp]; unfold portDecision; rw [h1]

/-- Witness for C9: the nonstandard action byte 7 for port 8001 still
redirects via queue 3's registered socket. -/
theorem C9_witness :
    (isUDPFrame goodFrame ∧ stAction7.port_filter (dportOf goodFrame) = some 7) ∧
    xdp_filter_prog stAction7 goodFrame 3 =
      some (bpf_redirect_map stAction7.xsks_map 3 XDP_PASS) :=
  ⟨⟨by decide, by decide⟩,
   (C9_any_nonzero_action_redirects stAction7 goodFrame 3 (by decide)).1 7
     (by decide) (by decide) (by decide)⟩

/-- C10: the program never requires ihl ≥ 5.  For an EtherType-IPv4,
protocol-UDP frame with ihl < 5 whose computed UDP extent fits the frame,
the two bytes used as destination port lie inside the fixed IPv4 header
region (offsets 14–33), they are read (present in the trace), and the frame
is classified — possibly redirected — by the port decision on them. -/
theorem C10_no_ihl_minimum (st : FilterState) (frame : List Nat) (rx : Nat)
    (hlen : ETH_HLEN + IPHDR_LEN ≤ frame.length)
    (hip : readU16be frame 12 = some ETH_P_IP)
    (hudp : readU8 frame 23 = some IPPROTO_UDP)
    (hihl : ihlOf frame < 5)
    (hfit : udpOff frame + UDPHDR_LEN ≤ frame.length) :
    ETH_HLEN ≤ udpOff frame + 2 ∧
    udpOff frame + 3 < ETH_HLEN + IPHDR_LEN ∧
    xdp_filter_prog st frame rx = some (portDecision st (dportOf frame) rx) ∧
    (xdp_filter_prog_tr st frame rx).map
      (fun pr => pr.2.contains (Effect.readByte (udpOff frame + 2))) = some true := by
  have hwf : isUDPFrame frame := ⟨hlen, hip, hudp, hfit⟩
  have hoff : udpOff frame = ETH_HLEN + ihlOf frame * 4 := rfl
  refine ⟨by omega, ?_, prog_parsed st frame rx hwf, ?_⟩
  · simp only [ETH_HLEN, IPHDR_LEN] at *
    omega
  · rw [prog_tr_parsed st frame rx hwf]
    cases hpf : st.port_filter (dportOf frame) with
    | none => simp [parseTrace]
    | some a =>
      by_cases ha : a % 256 = 0 <;> simp [ha, parseTrace]

/-- Witness for C10 at the concrete ihl = 4 frame: the port bytes sit at
offsets 32–33, inside the fixed IPv4 header, and the frame redirects. -/
theorem C10_witness :
    (ETH_HLEN + IPHDR_LEN ≤ ihl4Frame.length ∧
     readU16be ihl4Frame 12 = some ETH_P_IP ∧
     readU8 ihl4Frame 23 = some IPPROTO_UDP ∧
     ihlOf ihl4Frame < 5 ∧
     udpOff ihl4Frame + UDPHDR_LEN ≤ ihl4Frame.length) ∧
    (ETH_HLEN ≤ udpOff ihl4Frame + 2 ∧
     udpOff ihl4Frame + 3 < ETH_HLEN + IPHDR_LEN ∧
     xdp_filter_prog stRedirect ihl4Frame 3 =
       some (portDecision stRedirect (dportOf ihl4Frame) 3) ∧
     (xdp_filter_prog_tr stRedirect ihl4Frame 3).map
       (fun pr => pr.2.contains (Effect.readByte (udpOff ihl4Frame + 2))) = some true) :=
  ⟨⟨by decide, by decide, by decide, by decide, by decide⟩,
   C10_no_ihl_minimum stRedirect ihl4Frame 3
     (by decide) (by decide) (by decide) (by decide) (by decide)⟩

end XdpFilter
